import Mathlib

/-!
Shallow embedding of the `dmutils` utility library (views.py, logging.py,
email/user_account_email.py) together with theorems settling the claims
about it.  Each definition transcribes the corresponding Python source;
helpers of the repository that are not part of the given sources
(`csv_generator.iter_csv`, `ods.SpreadSheet.save`, `generate_token`,
`hash_string`, Flask's `url_for`) are modelled from the specification and
say so in their doc comments.
-/

namespace DMUtils

/-! ## views.py -/

/-- `DownloadFileView.FILETYPES = enum.Enum('Filetypes', ['CSV', 'ODF'])` -/
inductive Filetypes where
  | CSV
  | ODF
deriving DecidableEq, Repr

/-- The file-context dictionary produced by `get_file_context`; the download
view only ever reads its required key `filename` (without extension). -/
structure FileContext where
  filename : String
deriving DecidableEq, Repr

/-- Body payload of a built response: CSV text or ODS bytes. -/
inductive BodyData where
  | csvBody (text : String)
  | odsBody (bytes : List Nat)
deriving DecidableEq, Repr

/-- A Flask `Response` as built by the download view: body plus the three
header-ish attributes the view sets. -/
structure Response where
  body : BodyData
  mimetype : String
  contentDisposition : String
  contentType : String
deriving DecidableEq, Repr

/-- Modelled from the spec: `dmutils.ods.SpreadSheet` is not under src/; the
spec only says the view serializes rows into OpenDocument XML, so a
spreadsheet is represented by the bytes that `save` writes into the buffer. -/
structure SpreadSheet where
  saveBytes : List Nat

/-- `DownloadFileView.create_default_ods`: builds a fresh `SpreadSheet`
pre-configured with fonts and styles but no cell data; the styles do not
affect any claim, so the modelled spreadsheet starts with empty content. -/
def create_default_ods : SpreadSheet := ⟨[]⟩

/-- The names of the methods of `DownloadFileView` that carry the
`@abstractmethod` decorator in views.py, in source order. -/
def abstractMethods : List String :=
  ["_init_clients", "determine_filetype", "get_file_context",
   "generate_csv_rows", "generate_ods"]

/-- A subclass of `DownloadFileView`, given by the behaviour of its
abstract-method overrides.  `_pre_request_hook` and `_post_request_hook`
return `None` and their results are discarded by `dispatch_request`, and
`_init_clients` only assigns client attributes that no response-building
code reads, so neither influences the dispatch result and they are omitted
from the record. -/
structure DownloadFileView where
  determine_filetype : Option Filetypes
  get_file_context : FileContext
  generate_csv_rows : FileContext → List (List String)
  generate_ods : SpreadSheet → FileContext → SpreadSheet

/-- Modelled from the spec: `dmutils.csv_generator.iter_csv` is not under
src/; the spec says the view serializes the nested row list into CSV text.
With `csv.QUOTE_ALL` every cell is double-quoted (embedded quotes doubled)
and rows are CRLF-terminated. -/
def csvQuote (s : String) : String :=
  "\"" ++ s.replace "\"" "\"\"" ++ "\""

/-- One serialized CSV line for one row of cells. -/
def csvRow (row : List String) : String :=
  String.intercalate "," (row.map csvQuote) ++ "\r\n"

/-- Modelled from the spec: full CSV text for the complete nested row list. -/
def iter_csv : List (List String) → String
  | [] => ""
  | row :: rows => csvRow row ++ iter_csv rows

/-- `DownloadFileView.create_csv_response`: obtains the full nested row list
from `generate_csv_rows`, then builds the `(Response, 200)` pair. -/
def create_csv_response (v : DownloadFileView) (file_context : FileContext) :
    Response × Nat :=
  let csv_rows := v.generate_csv_rows file_context
  (⟨BodyData.csvBody (iter_csv csv_rows),
    "text/csv",
    "attachment;filename=" ++ file_context.filename ++ ".csv",
    "text/csv; header=present"⟩, 200)

/-- `DownloadFileView.create_ods_response`: saves the generated spreadsheet
into an in-memory buffer and puts the buffer's full contents in the
`(Response, 200)` pair. -/
def create_ods_response (v : DownloadFileView) (file_context : FileContext) :
    Response × Nat :=
  (⟨BodyData.odsBody ((v.generate_ods create_default_ods file_context).saveBytes),
    "application/vnd.oasis.opendocument.spreadsheet",
    "attachment;filename=" ++ file_context.filename ++ ".ods",
    "application/vnd.oasis.opendocument.spreadsheet"⟩, 200)

/-- `DownloadFileView.dispatch_request`: Flask's `abort(400)` raises, which
is modelled as `Except.error 400`; a normal return is `Except.ok` of the
`(Response, status)` pair. -/
def dispatch_request (v : DownloadFileView) : Except Nat (Response × Nat) :=
  let file_context := v.get_file_context
  match v.determine_filetype with
  | none => Except.error 400
  | some file_type =>
      if file_type = Filetypes.CSV then
        Except.ok (create_csv_response v file_context)
      else
        Except.ok (create_ods_response v file_context)

/-! ## email/user_account_email.py -/

/-- A Python string-to-string dict as an association list in insertion
order; `dset` is `d[k] = v` (replace in place if the key exists, else
append). -/
def dset (d : List (String × String)) (k v : String) : List (String × String) :=
  if d.any (fun kv => kv.1 = k) then
    d.map (fun kv => if kv.1 = k then (k, v) else kv)
  else
    d ++ [(k, v)]

/-- Python `d.update(e)`: apply each binding of `e` to `d` in order. -/
def dupdate (d e : List (String × String)) : List (String × String) :=
  e.foldl (fun acc kv => dset acc kv.1 kv.2) d

/-- Modelled from the spec: `dmutils.email.helpers.hash_string` is not under
src/; the spec only needs a deterministic hash of the email address. -/
def hash_string (s : String) : String :=
  toString (s.foldl (fun a c => (a * 131 + c.toNat) % 1000000007) 7)

/-- Modelled from the spec: `dmutils.email.generate_token` is not under
src/; the spec says a token is built from the data dictionary and signed
with `SHARED_EMAIL_KEY` and `INVITE_EMAIL_SALT`. -/
def generate_token (data : List (String × String)) (key salt : String) : String :=
  "tok." ++ hash_string
    (key ++ "." ++ salt ++ "." ++
      String.intercalate ";" (data.map (fun kv => kv.1 ++ "=" ++ kv.2)))

/-- Modelled from the spec: Flask's external `url_for('external.create_user',
encoded_token=token, _external=True)`; the produced link embeds the token. -/
def url_for_external_create_user (encoded_token : String) : String :=
  "http://localhost/user/create/" ++ encoded_token

/-- Relevant entries of `current_app.config` for the email helper.
`DM_NOTIFY_API_KEY` only parameterises the `DMNotifyClient` constructor and
never reaches any observable output. -/
structure NotifyConfig where
  dm_notify_api_key : String
  shared_email_key : String
  invite_email_salt : String

/-- Python exceptions the `send_email` call can raise: `EmailError` (the one
the helper catches) or any other exception type, identified by name. -/
inductive PyExc where
  | emailError (msg : String)
  | otherExc (name : String)
deriving DecidableEq, Repr

/-- The arguments of the one `notify_client.send_email(...)` call. -/
structure SendEmailCall where
  to_address : String
  template_id : String
  personalisation : List (String × String)
  reference : String
deriving DecidableEq, Repr

/-- How the helper terminates: normal completion, Flask `abort(status,
response=...)`, or an uncaught exception propagating out. -/
inductive SendResult where
  | completed
  | aborted (status : Nat) (response : String)
  | raised (e : PyExc)
deriving DecidableEq, Repr

/-- A record passed to `current_app.logger.error`: level 40 (`ERROR`),
the message format string, and the `extra` fields. -/
structure ErrorLogRecord where
  level : Nat
  msg : String
  error : String
  email_hash : String
  code : String
deriving DecidableEq, Repr

/-- The Flask session keys the helper touches. -/
structure SessionState where
  email_sent_to : Option String
deriving DecidableEq, Repr

/-- Everything observable about one run of `send_user_account_email`:
the `send_email` call it made, how it terminated, the session afterwards,
the log records it emitted, and the state of the caller's `personalisation`
dictionary after the call (the source updates only a `.copy()` of it, so the
caller's dictionary is returned as it was passed). -/
structure SendOutcome where
  call : SendEmailCall
  result : SendResult
  session : SessionState
  logged : List ErrorLogRecord
  personalisation_after : List (String × String)

/-- `send_user_account_email(role, email_address, template_id,
extra_token_data={}, personalisation={})`; `send_email_behaviour` is what the
notification client's `send_email` call does when reached (returns or
raises), and `session` is the Flask session before the call. -/
def send_user_account_email (cfg : NotifyConfig)
    (role email_address template_id : String)
    (extra_token_data personalisation : List (String × String))
    (send_email_behaviour : Except PyExc Unit)
    (session : SessionState) : SendOutcome :=
  let token_data := dupdate
    [("role", role), ("email_address", email_address)] extra_token_data
  let token := generate_token token_data cfg.shared_email_key cfg.invite_email_salt
  let link_url := url_for_external_create_user token
  let personalisation_with_link := dupdate personalisation [("url", link_url)]
  let call : SendEmailCall :=
    ⟨email_address, template_id, personalisation_with_link,
      "create-user-account-" ++ hash_string email_address⟩
  match send_email_behaviour with
  | Except.ok _ =>
      ⟨call, SendResult.completed,
        { session with email_sent_to := some email_address }, [],
        personalisation⟩
  | Except.error (PyExc.emailError m) =>
      ⟨call,
        SendResult.aborted 503 "Failed to send user creation email.",
        session,
        [⟨40,
          "{code}: Create user email for email_hash {email_hash} failed to send. Error: {error}",
          m, hash_string email_address, role ++ "create.fail"⟩],
        personalisation⟩
  | Except.error e =>
      ⟨call, SendResult.raised e, session, [], personalisation⟩

/-! ## logging.py -/

/-- `logging.getLevelName` applied to the standard level names (the config
values this library uses); the claims only depend on the standard mapping. -/
def getLevelName (s : String) : Nat :=
  if s = "CRITICAL" then 50
  else if s = "ERROR" then 40
  else if s = "WARNING" then 30
  else if s = "INFO" then 20
  else if s = "DEBUG" then 10
  else 0

/-- The two formatters `get_handlers` constructs: `CustomLogFormatter`
(standard text) and `JSONFormatter`, both over `LOG_FORMAT`/`TIME_FORMAT`. -/
inductive FormatterKind where
  | standard
  | json
deriving DecidableEq, Repr

/-- Where a handler writes: `logging.FileHandler(path)` or
`logging.StreamHandler(sys.stderr)`. -/
inductive HandlerTarget where
  | file (path : String)
  | stderrStream
deriving DecidableEq, Repr

/-- The two filter classes `configure_handler` attaches. -/
inductive LogFilter where
  | appNameFilter (app_name : String)
  | requestIdFilter
deriving DecidableEq, Repr

/-- A logging handler: target plus the mutable attributes the module sets. -/
structure Handler where
  target : HandlerTarget
  level : Nat
  formatter : Option FormatterKind
  filters : List LogFilter
deriving DecidableEq, Repr

/-- Relevant entries of the app config for the logging module; after
`init_app`'s `setdefault` calls, `DM_LOG_PATH` defaults to `None`, and a
Python `if app.config['DM_LOG_PATH']:` is falsy for `None` and for the
empty string. -/
structure AppConfig where
  dm_log_level : String
  dm_app_name : String
  dm_log_path : Option String
deriving DecidableEq, Repr

/-- A freshly constructed handler: no level, formatter or filters set yet. -/
def mkHandler (target : HandlerTarget) : Handler :=
  ⟨target, 0, none, []⟩

/-- `configure_handler(handler, app, formatter)`: set the handler's level to
`DM_LOG_LEVEL`, set its formatter, and add an `AppNameFilter(DM_APP_NAME)`
and a `RequestIdFilter`. -/
def configure_handler (handler : Handler) (app : AppConfig)
    (formatter : FormatterKind) : Handler :=
  { handler with
      level := getLevelName app.dm_log_level,
      formatter := some formatter,
      filters := handler.filters ++
        [LogFilter.appNameFilter app.dm_app_name, LogFilter.requestIdFilter] }

/-- `get_handlers(app)`: two file handlers (plain text at `DM_LOG_PATH`,
JSON at `DM_LOG_PATH + '.json'`) when `DM_LOG_PATH` is truthy, else one
stderr stream handler with the standard formatter. -/
def get_handlers (app : AppConfig) : List Handler :=
  match app.dm_log_path with
  | some p =>
      if p = "" then
        [configure_handler (mkHandler HandlerTarget.stderrStream) app FormatterKind.standard]
      else
        [configure_handler (mkHandler (HandlerTarget.file p)) app FormatterKind.standard,
         configure_handler (mkHandler (HandlerTarget.file (p ++ ".json"))) app FormatterKind.json]
  | none =>
      [configure_handler (mkHandler HandlerTarget.stderrStream) app FormatterKind.standard]

/-- The request attributes the `after_request` hook reads. -/
structure RequestCtx where
  method : String
  url : String
deriving DecidableEq, Repr

/-- The response object the `after_request` hook receives and returns. -/
structure WebResponse where
  status_code : Nat
  body : String
deriving DecidableEq, Repr

/-- The one `current_app.logger.log(level, msg, extra=...)` call the hook
makes: level, message format string, and the three `extra` fields. -/
structure AfterRequestLog where
  level : Nat
  msg : String
  method : String
  url : String
  status : Nat
deriving DecidableEq, Repr

/-- The `after_request(response)` hook installed by `init_app`: logs the
method, URL and status (at `logging.ERROR = 40` when
`status_code // 100 == 5`, else `logging.INFO = 20`) and returns the
response. -/
def after_request (req : RequestCtx) (response : WebResponse) :
    AfterRequestLog × WebResponse :=
  (⟨if response.status_code / 100 = 5 then 40 else 20,
    "{method} {url} {status}",
    req.method, req.url, response.status_code⟩,
   response)

/-- Every row of the complete dataset contributes its serialized line to the
CSV text: the line is an infix of `iter_csv rows`. -/
theorem csvRow_line_in_iter_csv {r : List String} {rows : List (List String)}
    (h : r ∈ rows) : (csvRow r).data <:+: (iter_csv rows).data := by
  induction rows with
  | nil => cases h
  | cons a t ih =>
      have hstep : (iter_csv (a :: t)).data = (csvRow a).data ++ (iter_csv t).data := by
        show (csvRow a ++ iter_csv t).data = _
        simp
      rcases List.mem_cons.mp h with h | h
      · subst h
        rw [hstep]
        exact ⟨[], (iter_csv t).data, by simp⟩
      · rw [hstep]
        exact (ih h).trans ⟨(csvRow a).data, [], by simp⟩

end DMUtils

namespace DMUtils

/-- C1: when `determine_filetype` returns a non-`None` value, exactly one of
`create_csv_response` and `create_ods_response` is executed (the two can
never build the same response), producing the `text/csv` response with the
`.csv` attachment filename when the value is `FILETYPES.CSV`, and the
`application/vnd.oasis.opendocument.spreadsheet` response with the `.ods`
attachment filename for every other non-`None` value. -/
theorem C1_exactly_one_output_format (v : DownloadFileView) (ft : Filetypes)
    (h : v.determine_filetype = some ft) :
    create_csv_response v v.get_file_context ≠
      create_ods_response v v.get_file_context ∧
    (ft = Filetypes.CSV →
      dispatch_request v =
        Except.ok (create_csv_response v v.get_file_context) ∧
      (create_csv_response v v.get_file_context).1.mimetype = "text/csv" ∧
      (create_csv_response v v.get_file_context).1.contentDisposition =
        "attachment;filename=" ++ v.get_file_context.filename ++ ".csv") ∧
    (ft ≠ Filetypes.CSV →
      dispatch_request v =
        Except.ok (create_ods_response v v.get_file_context) ∧
      (create_ods_response v v.get_file_context).1.mimetype =
        "application/vnd.oasis.opendocument.spreadsheet" ∧
      (create_ods_response v v.get_file_context).1.contentDisposition =
        "attachment;filename=" ++ v.get_file_context.filename ++ ".ods") := by
  refine ⟨?_, ?_, ?_⟩
  · intro heq
    have hmt : (create_csv_response v v.get_file_context).1.mimetype =
        (create_ods_response v v.get_file_context).1.mimetype := by rw [heq]
    simp [create_csv_response, create_ods_response] at hmt
  · intro hc
    subst hc
    refine ⟨?_, rfl, rfl⟩
    simp [dispatch_request, h]
  · intro hc
    refine ⟨?_, rfl, rfl⟩
    simp [dispatch_request, h, hc]

/-- Concrete instantiation of C1 at a view whose `determine_filetype`
returns `FILETYPES.CSV`. -/
def viewC1 : DownloadFileView :=
  ⟨some Filetypes.CSV, ⟨"report"⟩, fun _ => [["a", "b"]], fun s _ => s⟩

/-- Witness for C1. -/
theorem C1_exactly_one_output_format_witness :
    dispatch_request viewC1 =
      Except.ok (create_csv_response viewC1 viewC1.get_file_context) ∧
    (create_csv_response viewC1 viewC1.get_file_context).1.mimetype = "text/csv" := by
  have h := C1_exactly_one_output_format viewC1 Filetypes.CSV rfl
  exact ⟨(h.2.1 rfl).1, (h.2.1 rfl).2.1⟩

/-- C6: `dispatch_request` aborts with HTTP 400 when `determine_filetype`
returns `None`, and otherwise returns a `(response, 200)` pair without
aborting. -/
theorem C6_single_abort (v : DownloadFileView) :
    (v.determine_filetype = none → dispatch_request v = Except.error 400) ∧
    (∀ ft, v.determine_filetype = some ft →
      ∃ r : Response, dispatch_request v = Except.ok (r, 200)) := by
  constructor
  · intro h
    simp [dispatch_request, h]
  · intro ft h
    by_cases hc : ft = Filetypes.CSV
    · exact ⟨(create_csv_response v v.get_file_context).1, by
        simp [dispatch_request, h, hc]
        rfl⟩
    · exact ⟨(create_ods_response v v.get_file_context).1, by
        simp [dispatch_request, h, hc]
        rfl⟩

/-- Concrete view whose `determine_filetype` returns `None`. -/
def viewC6none : DownloadFileView :=
  ⟨none, ⟨"x"⟩, fun _ => [], fun s _ => s⟩

/-- Concrete view whose `determine_filetype` returns `FILETYPES.ODF`. -/
def viewC6odf : DownloadFileView :=
  ⟨some Filetypes.ODF, ⟨"x"⟩, fun _ => [], fun s _ => s⟩

/-- Witness for C6. -/
theorem C6_single_abort_witness :
    dispatch_request viewC6none = Except.error 400 ∧
    ∃ r : Response, dispatch_request viewC6odf = Except.ok (r, 200) :=
  ⟨(C6_single_abort viewC6none).1 rfl,
   (C6_single_abort viewC6odf).2 Filetypes.ODF rfl⟩

/-- C3 counterexample: `DownloadFileView` does not declare exactly four
`@abstractmethod` methods — views.py decorates five. -/
theorem C3_counterexample : ¬ (abstractMethods.length = 4) := by decide

/-- C3 (amended): `DownloadFileView` declares exactly five distinct abstract
hook methods that a subclass must override (`_init_clients`,
`determine_filetype`, `get_file_context`, `generate_csv_rows`,
`generate_ods`). -/
theorem C3_five_abstract_methods :
    abstractMethods.length = 5 ∧ abstractMethods.Nodup := by
  constructor
  · rfl
  · decide

/-- C5: both response-building paths materialize the complete dataset: the
CSV body is the serialization of the full nested row list obtained from
`generate_csv_rows` before the `Response` is built (and every row's line
occurs in it), and the ODS body is the full contents of the in-memory
buffer the spreadsheet was saved into. -/
theorem C5_full_materialization (v : DownloadFileView) (fc : FileContext) :
    (create_csv_response v fc).1.body =
      BodyData.csvBody (iter_csv (v.generate_csv_rows fc)) ∧
    (∀ r, r ∈ v.generate_csv_rows fc →
      (csvRow r).data <:+: (iter_csv (v.generate_csv_rows fc)).data) ∧
    (create_ods_response v fc).1.body =
      BodyData.odsBody ((v.generate_ods create_default_ods fc).saveBytes) :=
  ⟨rfl, fun _ h => csvRow_line_in_iter_csv h, rfl⟩

/-- Concrete view for the C5 witness. -/
def viewC5 : DownloadFileView :=
  ⟨some Filetypes.CSV, ⟨"data"⟩, fun _ => [["h"], ["v"]], fun s _ => s⟩

/-- Witness for C5. -/
theorem C5_full_materialization_witness :
    (create_csv_response viewC5 viewC5.get_file_context).1.body =
      BodyData.csvBody (iter_csv (viewC5.generate_csv_rows viewC5.get_file_context)) ∧
    (csvRow ["h"]).data <:+:
      (iter_csv (viewC5.generate_csv_rows viewC5.get_file_context)).data := by
  have h := C5_full_materialization viewC5 viewC5.get_file_context
  exact ⟨h.1, h.2.1 ["h"] (by simp [viewC5])⟩

/-- C2: `send_user_account_email` catches exactly `EmailError`: on it, the
run emits one error log record carrying the error string, the email hash
and the code `<role>create.fail`, and aborts with HTTP 503 and body
"Failed to send user creation email."; every other exception type
propagates uncaught (no log, no abort), and a successful send completes
normally. -/
theorem C2_catches_only_EmailError (cfg : NotifyConfig)
    (role email_address template_id : String)
    (extra_token_data personalisation : List (String × String))
    (b : Except PyExc Unit) (session : SessionState) :
    (∀ m, b = Except.error (PyExc.emailError m) →
      (send_user_account_email cfg role email_address template_id
          extra_token_data personalisation b session).result =
        SendResult.aborted 503 "Failed to send user creation email." ∧
      (send_user_account_email cfg role email_address template_id
          extra_token_data personalisation b session).logged =
        [⟨40,
          "{code}: Create user email for email_hash {email_hash} failed to send. Error: {error}",
          m, hash_string email_address, role ++ "create.fail"⟩]) ∧
    (∀ n, b = Except.error (PyExc.otherExc n) →
      (send_user_account_email cfg role email_address template_id
          extra_token_data personalisation b session).result =
        SendResult.raised (PyExc.otherExc n) ∧
      (send_user_account_email cfg role email_address template_id
          extra_token_data personalisation b session).logged = []) ∧
    (b = Except.ok () →
      (send_user_account_email cfg role email_address template_id
          extra_token_data personalisation b session).result =
        SendResult.completed) := by
  refine ⟨?_, ?_, ?_⟩
  · rintro m rfl
    exact ⟨rfl, rfl⟩
  · rintro n rfl
    exact ⟨rfl, rfl⟩
  · rintro rfl
    rfl

/-- Concrete configuration for the email witnesses. -/
def cfg0 : NotifyConfig := ⟨"apikey", "sharedkey", "salt"⟩

/-- Witness for C2. -/
theorem C2_catches_only_EmailError_witness :
    (send_user_account_email cfg0 "buyer" "a@b.c" "tmpl" [] []
        (Except.error (PyExc.emailError "boom")) ⟨none⟩).result =
      SendResult.aborted 503 "Failed to send user creation email." ∧
    (send_user_account_email cfg0 "buyer" "a@b.c" "tmpl" [] []
        (Except.error (PyExc.otherExc "ValueError")) ⟨none⟩).result =
      SendResult.raised (PyExc.otherExc "ValueError") :=
  ⟨((C2_catches_only_EmailError cfg0 "buyer" "a@b.c" "tmpl" [] []
      (Except.error (PyExc.emailError "boom")) ⟨none⟩).1 "boom" rfl).1,
   ((C2_catches_only_EmailError cfg0 "buyer" "a@b.c" "tmpl" [] []
      (Except.error (PyExc.otherExc "ValueError")) ⟨none⟩).2.1 "ValueError" rfl).1⟩

/-- C4: the `send_email` call is made with the given email address and
template id, with a personalisation dictionary equal to the supplied one
extended with key `url` bound to the link embedding the token generated
from `{'role': role, 'email_address': email_address}` updated with
`extra_token_data` (signed with `SHARED_EMAIL_KEY` and
`INVITE_EMAIL_SALT`), and with reference `create-user-account-` followed by
the hash of the email address. -/
theorem C4_send_email_arguments (cfg : NotifyConfig)
    (role email_address template_id : String)
    (extra_token_data personalisation : List (String × String))
    (b : Except PyExc Unit) (session : SessionState) :
    (send_user_account_email cfg role email_address template_id
        extra_token_data personalisation b session).call.to_address =
      email_address ∧
    (send_user_account_email cfg role email_address template_id
        extra_token_data personalisation b session).call.template_id =
      template_id ∧
    (send_user_account_email cfg role email_address template_id
        extra_token_data personalisation b session).call.personalisation =
      dupdate personalisation
        [("url", url_for_external_create_user
          (generate_token
            (dupdate [("role", role), ("email_address", email_address)]
              extra_token_data)
            cfg.shared_email_key cfg.invite_email_salt))] ∧
    (∃ pre : String,
      url_for_external_create_user
        (generate_token
          (dupdate [("role", role), ("email_address", email_address)]
            extra_token_data)
          cfg.shared_email_key cfg.invite_email_salt) =
      pre ++ generate_token
        (dupdate [("role", role), ("email_address", email_address)]
          extra_token_data)
        cfg.shared_email_key cfg.invite_email_salt) ∧
    (send_user_account_email cfg role email_address template_id
        extra_token_data personalisation b session).call.reference =
      "create-user-account-" ++ hash_string email_address := by
  rcases b with e | u
  · cases e
    · exact ⟨rfl, rfl, rfl, ⟨"http://localhost/user/create/", rfl⟩, rfl⟩
    · exact ⟨rfl, rfl, rfl, ⟨"http://localhost/user/create/", rfl⟩, rfl⟩
  · exact ⟨rfl, rfl, rfl, ⟨"http://localhost/user/create/", rfl⟩, rfl⟩

/-- Witness for C4. -/
theorem C4_send_email_arguments_witness :
    (send_user_account_email cfg0 "buyer" "a@b.c" "tmpl" [("k", "v")]
        [("name", "Ada")] (Except.ok ()) ⟨none⟩).call.to_address = "a@b.c" ∧
    (send_user_account_email cfg0 "buyer" "a@b.c" "tmpl" [("k", "v")]
        [("name", "Ada")] (Except.ok ()) ⟨none⟩).call.reference =
      "create-user-account-" ++ hash_string "a@b.c" := by
  have h := C4_send_email_arguments cfg0 "buyer" "a@b.c" "tmpl" [("k", "v")]
    [("name", "Ada")] (Except.ok ()) ⟨none⟩
  exact ⟨h.1, h.2.2.2.2⟩

/-- C8: `session['email_sent_to']` is set to the email address exactly when
`send_email` returns without raising; when it raises (in particular
`EmailError`), the session is left unchanged. -/
theorem C8_session_written_iff_sent (cfg : NotifyConfig)
    (role email_address template_id : String)
    (extra_token_data personalisation : List (String × String))
    (b : Except PyExc Unit) (session : SessionState) :
    (b = Except.ok () →
      (send_user_account_email cfg role email_address template_id
          extra_token_data personalisation b session).session.email_sent_to =
        some email_address) ∧
    (∀ e, b = Except.error e →
      (send_user_account_email cfg role email_address template_id
          extra_token_data personalisation b session).session = session) := by
  constructor
  · rintro rfl
    rfl
  · rintro e rfl
    cases e <;> rfl

/-- Witness for C8. -/
theorem C8_session_written_iff_sent_witness :
    (send_user_account_email cfg0 "buyer" "a@b.c" "tmpl" [] []
        (Except.ok ()) ⟨none⟩).session.email_sent_to = some "a@b.c" ∧
    (send_user_account_email cfg0 "buyer" "a@b.c" "tmpl" [] []
        (Except.error (PyExc.emailError "boom"))
        ⟨some "old@d.e"⟩).session = ⟨some "old@d.e"⟩ :=
  ⟨(C8_session_written_iff_sent cfg0 "buyer" "a@b.c" "tmpl" [] []
      (Except.ok ()) ⟨none⟩).1 rfl,
   (C8_session_written_iff_sent cfg0 "buyer" "a@b.c" "tmpl" [] []
      (Except.error (PyExc.emailError "boom")) ⟨some "old@d.e"⟩).2
      (PyExc.emailError "boom") rfl⟩

/-- C9: the caller's `personalisation` dictionary is never mutated — the
`url` key is added only to a copy, so after every run the dictionary equals
what was passed in, whatever the send outcome. -/
theorem C9_personalisation_not_mutated (cfg : NotifyConfig)
    (role email_address template_id : String)
    (extra_token_data personalisation : List (String × String))
    (b : Except PyExc Unit) (session : SessionState) :
    (send_user_account_email cfg role email_address template_id
        extra_token_data personalisation b session).personalisation_after =
      personalisation := by
  rcases b with e | u
  · cases e <;> rfl
  · rfl

/-- Witness for C9. -/
theorem C9_personalisation_not_mutated_witness :
    (send_user_account_email cfg0 "buyer" "a@b.c" "tmpl" []
        [("name", "Ada")] (Except.ok ()) ⟨none⟩).personalisation_after =
      [("name", "Ada")] :=
  C9_personalisation_not_mutated cfg0 "buyer" "a@b.c" "tmpl" []
    [("name", "Ada")] (Except.ok ()) ⟨none⟩

/-- C7: every handler `get_handlers` returns has its level set to the app's
`DM_LOG_LEVEL`, a formatter set, and both an `AppNameFilter` (carrying
`DM_APP_NAME`) and a `RequestIdFilter` added; when `DM_LOG_PATH` is set
(truthy, i.e. a non-empty path) `get_handlers` returns exactly the
plain-text file handler at `DM_LOG_PATH` and the JSON file handler at
`DM_LOG_PATH + '.json'`, and otherwise exactly one stderr stream handler
with the standard formatter. -/
theorem C7_handlers_configured (app : AppConfig) :
    (∀ h, h ∈ get_handlers app →
      h.level = getLevelName app.dm_log_level ∧
      h.formatter.isSome = true ∧
      LogFilter.appNameFilter app.dm_app_name ∈ h.filters ∧
      LogFilter.requestIdFilter ∈ h.filters) ∧
    (∀ p, app.dm_log_path = some p → p ≠ "" →
      get_handlers app =
        [⟨HandlerTarget.file p, getLevelName app.dm_log_level,
          some FormatterKind.standard,
          [LogFilter.appNameFilter app.dm_app_name, LogFilter.requestIdFilter]⟩,
         ⟨HandlerTarget.file (p ++ ".json"), getLevelName app.dm_log_level,
          some FormatterKind.json,
          [LogFilter.appNameFilter app.dm_app_name, LogFilter.requestIdFilter]⟩]) ∧
    ((app.dm_log_path = none ∨ app.dm_log_path = some "") →
      get_handlers app =
        [⟨HandlerTarget.stderrStream, getLevelName app.dm_log_level,
          some FormatterKind.standard,
          [LogFilter.appNameFilter app.dm_app_name,
           LogFilter.requestIdFilter]⟩]) := by
  refine ⟨?_, ?_, ?_⟩
  · intro h hmem
    rcases hpath : app.dm_log_path with _ | p
    · rw [get_handlers, hpath] at hmem
      simp at hmem
      subst hmem
      exact ⟨rfl, rfl, by simp [configure_handler, mkHandler],
        by simp [configure_handler, mkHandler]⟩
    · by_cases hp : p = ""
      · rw [get_handlers, hpath] at hmem
        simp [hp] at hmem
        subst hmem
        exact ⟨rfl, rfl, by simp [configure_handler, mkHandler],
          by simp [configure_handler, mkHandler]⟩
      · rw [get_handlers, hpath] at hmem
        simp [hp] at hmem
        rcases hmem with hm | hm <;> subst hm <;>
          exact ⟨rfl, rfl, by simp [configure_handler, mkHandler],
            by simp [configure_handler, mkHandler]⟩
  · intro p hpath hp
    rw [get_handlers, hpath]
    simp [hp, configure_handler, mkHandler]
  · rintro (hpath | hpath) <;> rw [get_handlers, hpath] <;> rfl

/-- Witness for C7. -/
theorem C7_handlers_configured_witness :
    get_handlers ⟨"INFO", "myapp", some "/var/log/app"⟩ =
      [⟨HandlerTarget.file "/var/log/app", getLevelName "INFO",
        some FormatterKind.standard,
        [LogFilter.appNameFilter "myapp", LogFilter.requestIdFilter]⟩,
       ⟨HandlerTarget.file ("/var/log/app" ++ ".json"), getLevelName "INFO",
        some FormatterKind.json,
        [LogFilter.appNameFilter "myapp", LogFilter.requestIdFilter]⟩] ∧
    get_handlers ⟨"INFO", "myapp", none⟩ =
      [⟨HandlerTarget.stderrStream, getLevelName "INFO",
        some FormatterKind.standard,
        [LogFilter.appNameFilter "myapp", LogFilter.requestIdFilter]⟩] :=
  ⟨(C7_handlers_configured ⟨"INFO", "myapp", some "/var/log/app"⟩).2.1
      "/var/log/app" rfl (by decide),
   (C7_handlers_configured ⟨"INFO", "myapp", none⟩).2.2 (Or.inl rfl)⟩

/-- C10: the `after_request` hook logs every response with a record carrying
the request method, URL and status code, at level `ERROR` (40) if and only
if the status code is in 500..599 (`status_code // 100 == 5`) and at level
`INFO` (20) otherwise, and it returns the response unchanged. -/
theorem C10_after_request_logging (req : RequestCtx) (response : WebResponse) :
    (after_request req response).2 = response ∧
    (after_request req response).1.method = req.method ∧
    (after_request req response).1.url = req.url ∧
    (after_request req response).1.status = response.status_code ∧
    ((after_request req response).1.level = 40 ↔
      500 ≤ response.status_code ∧ response.status_code ≤ 599) ∧
    ((after_request req response).1.level = 20 ↔
      ¬ (500 ≤ response.status_code ∧ response.status_code ≤ 599)) := by
  refine ⟨rfl, rfl, rfl, rfl, ?_, ?_⟩ <;>
    · simp only [after_request]
      by_cases h : response.status_code / 100 = 5 <;> simp [h] <;> omega

/-- Witness for C10. -/
theorem C10_after_request_logging_witness :
    (after_request ⟨"GET", "http://x/y"⟩ ⟨503, "b"⟩).1.level = 40 ∧
    (after_request ⟨"GET", "http://x/y"⟩ ⟨200, "b"⟩).1.level = 20 ∧
    (after_request ⟨"GET", "http://x/y"⟩ ⟨503, "b"⟩).2 = ⟨503, "b"⟩ :=
  ⟨((C10_after_request_logging ⟨"GET", "http://x/y"⟩ ⟨503, "b"⟩).2.2.2.2.1).mpr
      (by decide),
   ((C10_after_request_logging ⟨"GET", "http://x/y"⟩ ⟨200, "b"⟩).2.2.2.2.2).mpr
      (by decide),
   (C10_after_request_logging ⟨"GET", "http://x/y"⟩ ⟨503, "b"⟩).1⟩

end DMUtils
